import Mathlib

/-!
Shallow embedding of the GitHub Copilot authentication manager
(`src-tauri/src/proxy/providers/copilot_auth.rs`).

Network I/O is modelled by passing each HTTP interaction's outcome as an
explicit oracle argument: `Except String R` where the `String` side is a
transport-level failure message and `R` carries the HTTP status, raw body
text, and the JSON-parse attempt of the body. The durable store is the
`disk` field of the manager state (`none` = file absent). `now` (the
current Unix timestamp, `chrono::Utc::now().timestamp()` in the source)
is passed explicitly.
-/

namespace CopilotAuth

/-- TOKEN_REFRESH_BUFFER_SECONDS: refresh lead time in seconds. -/
def TOKEN_REFRESH_BUFFER_SECONDS : Int := 60

/-- CopilotToken: downstream bearer token with absolute expiry (Unix seconds). -/
structure CopilotToken where
  token : String
  expires_at : Int
deriving DecidableEq, Repr

/-- CopilotToken::is_expiring_soon: true when fewer than 60 seconds remain. -/
def CopilotToken.is_expiring_soon (t : CopilotToken) (now : Int) : Bool :=
  t.expires_at - now < TOKEN_REFRESH_BUFFER_SECONDS

/-- GitHubUser: resolved account identity. -/
structure GitHubUser where
  login : String
  id : Nat
  avatar_url : Option String
deriving DecidableEq, Repr

/-- CopilotAuthStatus: the status projection returned by get_status. -/
structure CopilotAuthStatus where
  authenticated : Bool
  username : Option String
  expires_at : Option Int
deriving DecidableEq, Repr

/-- CopilotAuthStore: the durable JSON record. -/
structure CopilotAuthStore where
  github_token : Option String
  authenticated_at : Option Int
deriving DecidableEq, Repr

/-- CopilotAuthError: the closed error enumeration of the module. -/
inductive CopilotAuthError where
  | DeviceFlowNotStarted
  | AuthorizationPending
  | AccessDenied
  | ExpiredToken
  | GitHubTokenInvalid
  | CopilotTokenFetchFailed (msg : String)
  | NetworkError (msg : String)
  | ParseError (msg : String)
  | IoError (msg : String)
  | NoCopilotSubscription
deriving DecidableEq, Repr

/-- GitHubOAuthResponse: parsed body of the OAuth poll endpoint. -/
structure GitHubOAuthResponse where
  access_token : Option String
  token_type : Option String
  scope : Option String
  error : Option String
  error_description : Option String
deriving DecidableEq, Repr

/-- CopilotTokenResponse: parsed body of the Copilot token endpoint. -/
structure CopilotTokenResponse where
  token : String
  expires_at : Int
  refresh_in : Option Int
deriving DecidableEq, Repr

/-- CopilotModel: a catalog entry as returned to the caller. -/
structure CopilotModel where
  id : String
  name : String
  vendor : String
  model_picker_enabled : Bool
deriving DecidableEq, Repr

/-- CopilotModelsResponseItem: a raw catalog entry from the wire. -/
structure CopilotModelsResponseItem where
  id : String
  name : String
  vendor : String
  model_picker_enabled : Bool
deriving DecidableEq, Repr

/-- CopilotModelsResponse: raw body of the models endpoint. -/
structure CopilotModelsResponse where
  data : List CopilotModelsResponseItem
deriving DecidableEq, Repr

/-- HTTP response from the Copilot token endpoint: status, raw text, and the
JSON-parse attempt of the body as a CopilotTokenResponse. -/
structure CopilotTokenHttpResp where
  status : Nat
  text : String
  body : Except String CopilotTokenResponse

/-- HTTP response from the GitHub user endpoint. -/
structure UserHttpResp where
  status : Nat
  body : Except String GitHubUser

/-- HTTP response from the models endpoint. -/
structure ModelsHttpResp where
  status : Nat
  text : String
  body : Except String CopilotModelsResponse

/-- Outcome of the OAuth poll request as seen by poll_for_token: transport
failure, body JSON-parse failure, or a parsed GitHubOAuthResponse. -/
inductive PollWire where
  | netErr (msg : String)
  | parseErr (msg : String)
  | resp (r : GitHubOAuthResponse)

/-- ManagerState: the three independently cached values of CopilotAuthManager
plus the contents of the durable store file (none = file absent). -/
structure ManagerState where
  github_token : Option String
  copilot_token : Option CopilotToken
  github_user : Option GitHubUser
  disk : Option CopilotAuthStore
deriving DecidableEq, Repr

/-- reqwest StatusCode::is_success: a 2xx status. -/
def isSuccessStatus (s : Nat) : Bool := 200 ≤ s && s < 300

/-- CopilotAuthManager::get_status: pure projection of the cached state. -/
def get_status (s : ManagerState) : CopilotAuthStatus :=
  { authenticated := s.github_token.isSome && s.copilot_token.isSome
    username := s.github_user.map (fun u => u.login)
    expires_at := s.copilot_token.map (fun t => t.expires_at) }

/-- CopilotAuthManager::is_authenticated: GitHub token present. -/
def is_authenticated (s : ManagerState) : Bool :=
  s.github_token.isSome

/-- CopilotAuthManager::clear_auth: clear the three cached values, then delete
the store file if it exists; `rmErr` is the possible fs::remove_file failure,
consulted only when the file exists. -/
def clear_auth (s : ManagerState) (rmErr : Option String) :
    ManagerState × Except CopilotAuthError Unit :=
  let s1 : ManagerState :=
    { s with github_token := none, copilot_token := none, github_user := none }
  match s1.disk with
  | none => (s1, .ok ())
  | some _ =>
    match rmErr with
    | none => ({ s1 with disk := none }, .ok ())
    | some e => (s1, .error (.IoError e))

/-- CopilotAuthManager::save_to_disk: write the GitHub token and the current
timestamp to the store; `ioErr` is the possible fs failure. -/
def save_to_disk (s : ManagerState) (now : Int) (ioErr : Option String) :
    ManagerState × Except CopilotAuthError Unit :=
  match ioErr with
  | some e => (s, .error (.IoError e))
  | none =>
    ({ s with disk := some { github_token := s.github_token,
                             authenticated_at := some now } }, .ok ())

/-- Response classification inside CopilotAuthManager::fetch_copilot_token:
401 → GitHubTokenInvalid, 403 → NoCopilotSubscription, other non-2xx →
CopilotTokenFetchFailed with status and body, then JSON parse. -/
def classify_copilot_response (net : Except String CopilotTokenHttpResp) :
    Except CopilotAuthError CopilotTokenResponse :=
  match net with
  | .error e => .error (.NetworkError e)
  | .ok resp =>
    if resp.status == 401 then .error .GitHubTokenInvalid
    else if resp.status == 403 then .error .NoCopilotSubscription
    else if !isSuccessStatus resp.status then
      .error (.CopilotTokenFetchFailed (toString resp.status ++ ": " ++ resp.text))
    else
      match resp.body with
      | .error e => .error (.ParseError e)
      | .ok tr => .ok tr

/-- CopilotAuthManager::fetch_copilot_token: requires the GitHub token, sends
the exchange request, classifies the response, and on success replaces the
cached Copilot token. -/
def fetch_copilot_token (s : ManagerState) (net : Except String CopilotTokenHttpResp) :
    ManagerState × Except CopilotAuthError Unit :=
  match s.github_token with
  | none => (s, .error .GitHubTokenInvalid)
  | some _ =>
    match classify_copilot_response net with
    | .error e => (s, .error e)
    | .ok tr =>
      ({ s with copilot_token := some { token := tr.token, expires_at := tr.expires_at } },
       .ok ())

deriving instance DecidableEq for Except

/-- Result of one run of get_valid_token: final state, returned value, and
the number of exchange (fetch_copilot_token) calls issued. -/
structure GetValidTokenRun where
  state : ManagerState
  result : Except CopilotAuthError String
  fetch_calls : Nat
deriving DecidableEq, Repr

/-- Refresh path of CopilotAuthManager::get_valid_token: invoke
fetch_copilot_token, propagate its error, and re-read the cache. -/
def get_valid_token_refresh (s : ManagerState)
    (net : Except String CopilotTokenHttpResp) : GetValidTokenRun :=
  let fr := fetch_copilot_token s net
  match fr.2 with
  | .error e => ⟨fr.1, .error e, 1⟩
  | .ok _ =>
    match fr.1.copilot_token with
    | some t => ⟨fr.1, .ok t.token, 1⟩
    | none => ⟨fr.1, .error (.CopilotTokenFetchFailed "刷新后仍无令牌"), 1⟩

/-- CopilotAuthManager::get_valid_token: return the cached Copilot token when
it is not expiring soon, otherwise refresh via fetch_copilot_token. -/
def get_valid_token (s : ManagerState) (now : Int)
    (net : Except String CopilotTokenHttpResp) : GetValidTokenRun :=
  match s.copilot_token with
  | some t =>
    if !t.is_expiring_soon now then ⟨s, .ok t.token, 0⟩
    else get_valid_token_refresh s net
  | none => get_valid_token_refresh s net

/-- CopilotAuthManager::fetch_user_info: requires the GitHub token; on a
non-2xx status fails with GitHubTokenInvalid, otherwise parses the user and
stores it. -/
def fetch_user_info (s : ManagerState) (net : Except String UserHttpResp) :
    ManagerState × Except CopilotAuthError Unit :=
  match s.github_token with
  | none => (s, .error .GitHubTokenInvalid)
  | some _ =>
    match net with
    | .error e => (s, .error (.NetworkError e))
    | .ok resp =>
      if !isSuccessStatus resp.status then (s, .error .GitHubTokenInvalid)
      else
        match resp.body with
        | .error e => (s, .error (.ParseError e))
        | .ok u => ({ s with github_user := some u }, .ok ())

/-- Error-string classification inside CopilotAuthManager::poll_for_token. -/
def classify_oauth_error (e : String) (desc : Option String) : CopilotAuthError :=
  if e = "authorization_pending" then .AuthorizationPending
  else if e = "slow_down" then .AuthorizationPending
  else if e = "expired_token" then .ExpiredToken
  else if e = "access_denied" then .AccessDenied
  else .NetworkError (e ++ ": " ++ desc.getD "")

/-- CopilotAuthManager::poll_for_token: classify the OAuth response; on an
access token, cache it, best-effort fetch the user (error swallowed), fetch
the Copilot token (error propagated), then persist to disk. -/
def poll_for_token (s : ManagerState) (wire : PollWire)
    (userNet : Except String UserHttpResp)
    (copNet : Except String CopilotTokenHttpResp)
    (now : Int) (ioErr : Option String) :
    ManagerState × Except CopilotAuthError Unit :=
  match wire with
  | .netErr m => (s, .error (.NetworkError m))
  | .parseErr m => (s, .error (.ParseError m))
  | .resp r =>
    match r.error with
    | some e => (s, .error (classify_oauth_error e r.error_description))
    | none =>
      match r.access_token with
      | none => (s, .error (.ParseError "缺少 access_token"))
      | some tok =>
        let s1 : ManagerState := { s with github_token := some tok }
        let s2 := (fetch_user_info s1 userNet).1
        let fr := fetch_copilot_token s2 copNet
        match fr.2 with
        | .error e => (fr.1, .error e)
        | .ok _ =>
          let sr := save_to_disk fr.1 now ioErr
          match sr.2 with
          | .error e => (sr.1, .error e)
          | .ok _ => (sr.1, .ok ())

/-- CopilotAuthManager::fetch_models: obtain a valid Copilot token, query the
catalog, and keep only picker-enabled entries. -/
def fetch_models (s : ManagerState) (now : Int)
    (tokNet : Except String CopilotTokenHttpResp)
    (net : Except String ModelsHttpResp) :
    ManagerState × Except CopilotAuthError (List CopilotModel) :=
  let run := get_valid_token s now tokNet
  match run.result with
  | .error e => (run.state, .error e)
  | .ok _ =>
    match net with
    | .error e => (run.state, .error (.NetworkError e))
    | .ok resp =>
      if !isSuccessStatus resp.status then
        (run.state, .error (.CopilotTokenFetchFailed
          ("获取模型列表失败: " ++ toString resp.status ++ " - " ++ resp.text)))
      else
        match resp.body with
        | .error e => (run.state, .error (.ParseError e))
        | .ok mr =>
          (run.state, .ok ((mr.data.filter (fun m => m.model_picker_enabled)).map
            (fun m => { id := m.id, name := m.name, vendor := m.vendor,
                        model_picker_enabled := m.model_picker_enabled })))

/-- Sample empty manager state. -/
def mgrEmpty : ManagerState :=
  { github_token := none, copilot_token := none, github_user := none, disk := none }

/-- Sample manager state holding only a GitHub token. -/
def mgrGitHub : ManagerState :=
  { github_token := some "gho_sample", copilot_token := none, github_user := none,
    disk := none }

/-- Sample manager state with a GitHub token and a fresh Copilot token. -/
def mgrFresh : ManagerState :=
  { github_token := some "gho_sample",
    copilot_token := some { token := "cop_tok", expires_at := 1000 },
    github_user := none, disk := none }

/-- Sample OAuth response carrying the given error string. -/
def oauthErr (e : String) : GitHubOAuthResponse :=
  { access_token := none, token_type := none, scope := none, error := some e,
    error_description := some "d" }

/-- Sample OAuth response granting an access token. -/
def oauthGrant : GitHubOAuthResponse :=
  { access_token := some "gho_sample", token_type := some "bearer",
    scope := some "read:user", error := none, error_description := none }

/-- Sample successful Copilot token exchange response. -/
def copOkResp : CopilotTokenHttpResp :=
  { status := 200, text := "",
    body := .ok { token := "cop_new", expires_at := 5000, refresh_in := none } }

/-- Sample 401 exchange response. -/
def cop401Resp : CopilotTokenHttpResp :=
  { status := 401, text := "unauthorized", body := .error "no body" }

/-- Sample 403 exchange response. -/
def cop403Resp : CopilotTokenHttpResp :=
  { status := 403, text := "forbidden", body := .error "no body" }

/-- Sample failed user-info request outcome. -/
def userFail : Except String UserHttpResp := .error "offline"

/-- Sample models response: one picker-enabled and one picker-disabled entry. -/
def modelsTwoResp : ModelsHttpResp :=
  { status := 200, text := "",
    body := .ok { data :=
      [ { id := "a", name := "A", vendor := "v", model_picker_enabled := true },
        { id := "b", name := "B", vendor := "v", model_picker_enabled := false } ] } }

/-- Helper: fetch_user_info never changes the GitHub token, the Copilot token
or the disk. -/
theorem fetch_user_info_preserves (s : ManagerState) (net : Except String UserHttpResp) :
    ((fetch_user_info s net).1).github_token = s.github_token ∧
    ((fetch_user_info s net).1).copilot_token = s.copilot_token ∧
    ((fetch_user_info s net).1).disk = s.disk := by
  cases hg : s.github_token with
  | none => simp [fetch_user_info, hg]
  | some g =>
    cases net with
    | error e => simp [fetch_user_info, hg]
    | ok resp =>
      cases hs : isSuccessStatus resp.status with
      | false => simp [fetch_user_info, hg, hs]
      | true =>
        cases hb : resp.body with
        | error e => simp [fetch_user_info, hg, hs, hb]
        | ok u => simp [fetch_user_info, hg, hs, hb]

/-- Helper: fetch_copilot_token never changes the GitHub token, the user or
the disk. -/
theorem fetch_copilot_token_preserves (s : ManagerState)
    (net : Except String CopilotTokenHttpResp) :
    ((fetch_copilot_token s net).1).github_token = s.github_token ∧
    ((fetch_copilot_token s net).1).github_user = s.github_user ∧
    ((fetch_copilot_token s net).1).disk = s.disk := by
  cases hg : s.github_token with
  | none => simp [fetch_copilot_token, hg]
  | some g =>
    cases hc : classify_copilot_response net with
    | error e => simp [fetch_copilot_token, hg, hc]
    | ok tr => simp [fetch_copilot_token, hg, hc]

/-- Helper: a successful fetch_copilot_token leaves a cached Copilot token. -/
theorem fetch_copilot_token_ok_copilot (s : ManagerState)
    (net : Except String CopilotTokenHttpResp)
    (h : (fetch_copilot_token s net).2 = .ok ()) :
    ((fetch_copilot_token s net).1).copilot_token.isSome = true := by
  cases hg : s.github_token with
  | none => simp [fetch_copilot_token, hg] at h
  | some g =>
    cases hc : classify_copilot_response net with
    | error e => simp [fetch_copilot_token, hg, hc] at h
    | ok tr => simp [fetch_copilot_token, hg, hc]

/-- Helper: a successful fetch_copilot_token means the response classified as
a token. -/
theorem fetch_copilot_token_ok_classify (s : ManagerState)
    (net : Except String CopilotTokenHttpResp)
    (h : (fetch_copilot_token s net).2 = .ok ()) :
    ∃ tr, classify_copilot_response net = .ok tr := by
  cases hg : s.github_token with
  | none => simp [fetch_copilot_token, hg] at h
  | some g =>
    cases hc : classify_copilot_response net with
    | error e => simp [fetch_copilot_token, hg, hc] at h
    | ok tr => exact ⟨tr, rfl⟩

/-- Helper: with a GitHub token present, fetch_copilot_token propagates a
classification error unchanged and leaves the state unchanged. -/
theorem fetch_copilot_token_of_classify_error (s : ManagerState)
    (net : Except String CopilotTokenHttpResp) (g : String) (e : CopilotAuthError)
    (hg : s.github_token = some g) (hc : classify_copilot_response net = .error e) :
    fetch_copilot_token s net = (s, .error e) := by
  simp [fetch_copilot_token, hg, hc]

/-- C1: OAuth poll errors map authorization_pending and slow_down to
AuthorizationPending, expired_token to ExpiredToken, access_denied to
AccessDenied, and any other error string to a NetworkError carrying the
provider message; in the downstream exchange a 401 yields GitHubTokenInvalid
and a 403 yields NoCopilotSubscription. -/
theorem poll_error_classification (s : ManagerState)
    (un : Except String UserHttpResp) (cn : Except String CopilotTokenHttpResp)
    (now : Int) (ioErr : Option String) (r : GitHubOAuthResponse) :
    (r.error = some "authorization_pending" →
      (poll_for_token s (.resp r) un cn now ioErr).2 = .error .AuthorizationPending) ∧
    (r.error = some "slow_down" →
      (poll_for_token s (.resp r) un cn now ioErr).2 = .error .AuthorizationPending) ∧
    (r.error = some "expired_token" →
      (poll_for_token s (.resp r) un cn now ioErr).2 = .error .ExpiredToken) ∧
    (r.error = some "access_denied" →
      (poll_for_token s (.resp r) un cn now ioErr).2 = .error .AccessDenied) ∧
    (∀ e, r.error = some e → e ≠ "authorization_pending" → e ≠ "slow_down" →
      e ≠ "expired_token" → e ≠ "access_denied" →
      (poll_for_token s (.resp r) un cn now ioErr).2 =
        .error (.NetworkError (e ++ ": " ++ r.error_description.getD ""))) ∧
    (∀ resp : CopilotTokenHttpResp, s.github_token.isSome = true → resp.status = 401 →
      (fetch_copilot_token s (.ok resp)).2 = .error .GitHubTokenInvalid) ∧
    (∀ resp : CopilotTokenHttpResp, s.github_token.isSome = true → resp.status = 403 →
      (fetch_copilot_token s (.ok resp)).2 = .error .NoCopilotSubscription) := by
  refine ⟨?_, ?_, ?_, ?_, ?_, ?_, ?_⟩
  · intro h; simp [poll_for_token, h, classify_oauth_error]
  · intro h; simp [poll_for_token, h, classify_oauth_error]
  · intro h; simp [poll_for_token, h, classify_oauth_error]
  · intro h; simp [poll_for_token, h, classify_oauth_error]
  · intro e h h1 h2 h3 h4
    simp [poll_for_token, h, classify_oauth_error, h1, h2, h3, h4]
  · intro resp hg hst
    obtain ⟨g, hg⟩ := Option.isSome_iff_exists.mp hg
    simp [fetch_copilot_token, hg, classify_copilot_response, hst]
  · intro resp hg hst
    obtain ⟨g, hg⟩ := Option.isSome_iff_exists.mp hg
    simp [fetch_copilot_token, hg, classify_copilot_response, hst]

/-- Witness for C1: slow_down maps to AuthorizationPending and a 401 exchange
response maps to GitHubTokenInvalid at concrete inputs. -/
theorem poll_error_classification_witness :
    (poll_for_token mgrEmpty (.resp (oauthErr "slow_down")) userFail (.ok cop401Resp)
        0 none).2 = .error .AuthorizationPending ∧
    (fetch_copilot_token mgrGitHub (.ok cop401Resp)).2 = .error .GitHubTokenInvalid ∧
    (fetch_copilot_token mgrGitHub (.ok cop403Resp)).2 = .error .NoCopilotSubscription := by
  refine ⟨?_, ?_, ?_⟩
  · exact (poll_error_classification mgrEmpty userFail (.ok cop401Resp) 0 none
      (oauthErr "slow_down")).2.1 rfl
  · exact (poll_error_classification mgrGitHub userFail (.ok cop401Resp) 0 none
      (oauthErr "x")).2.2.2.2.2.1 cop401Resp rfl rfl
  · exact (poll_error_classification mgrGitHub userFail (.ok cop403Resp) 0 none
      (oauthErr "x")).2.2.2.2.2.2 cop403Resp rfl rfl

/-- C3: for every token and time now, is_expiring_soon is true iff
expires_at - now < 60; a margin of exactly 60 is not expiring-soon and a
margin of 59 is. -/
theorem is_expiring_soon_iff (t : CopilotToken) (now : Int) :
    (t.is_expiring_soon now = true ↔ t.expires_at - now < 60) ∧
    (t.expires_at - now = 60 → t.is_expiring_soon now = false) ∧
    (t.expires_at - now = 59 → t.is_expiring_soon now = true) := by
  refine ⟨?_, ?_, ?_⟩
  · simp [CopilotToken.is_expiring_soon, TOKEN_REFRESH_BUFFER_SECONDS]
  · intro h
    simp [CopilotToken.is_expiring_soon, TOKEN_REFRESH_BUFFER_SECONDS, h]
  · intro h
    simp [CopilotToken.is_expiring_soon, TOKEN_REFRESH_BUFFER_SECONDS, h]

/-- Witness for C3 at the boundary: 59 seconds of margin is expiring-soon. -/
theorem is_expiring_soon_iff_witness :
    CopilotToken.is_expiring_soon { token := "t", expires_at := 59 } 0 = true :=
  (is_expiring_soon_iff { token := "t", expires_at := 59 } 0).2.2 (by decide)

/-- C7: is_authenticated is exactly presence of the GitHub token, unaffected
by the Copilot token, while get_status requires both tokens. -/
theorem is_authenticated_iff (s : ManagerState) :
    (is_authenticated s = s.github_token.isSome) ∧
    (∀ ct, is_authenticated { s with copilot_token := ct } = is_authenticated s) ∧
    ((get_status s).authenticated = (s.github_token.isSome && s.copilot_token.isSome)) := by
  refine ⟨rfl, fun ct => rfl, rfl⟩

/-- C2: with a cached Copilot token that is not expiring soon, get_valid_token
returns it unchanged with zero exchange calls; with an empty or stale cache it
issues exactly one exchange call, fails when the exchange fails, and otherwise
returns the newly cached token. -/
theorem get_valid_token_cache_policy (s : ManagerState) (now : Int)
    (net : Except String CopilotTokenHttpResp) :
    (∀ t, s.copilot_token = some t → t.is_expiring_soon now = false →
      get_valid_token s now net = ⟨s, .ok t.token, 0⟩) ∧
    ((s.copilot_token = none ∨
        ∃ t, s.copilot_token = some t ∧ t.is_expiring_soon now = true) →
      ((get_valid_token s now net).fetch_calls = 1 ∧
       (∀ e, (fetch_copilot_token s net).2 = .error e →
          (get_valid_token s now net).result = .error e) ∧
       (∀ t, (fetch_copilot_token s net).2 = .ok () →
          ((fetch_copilot_token s net).1).copilot_token = some t →
          (get_valid_token s now net).result = .ok t.token ∧
          (get_valid_token s now net).state = (fetch_copilot_token s net).1))) := by
  constructor
  · intro t ht hf
    simp [get_valid_token, ht, hf]
  · intro h
    have hred : get_valid_token s now net = get_valid_token_refresh s net := by
      rcases h with h | ⟨t, ht, hst⟩
      · simp [get_valid_token, h]
      · simp [get_valid_token, ht, hst]
    rw [hred]
    refine ⟨?_, ?_, ?_⟩
    · unfold get_valid_token_refresh
      cases hfr : (fetch_copilot_token s net).2 with
      | error e => simp [hfr]
      | ok u =>
        cases u
        cases hcc : ((fetch_copilot_token s net).1).copilot_token with
        | none => simp [hfr, hcc]
        | some t => simp [hfr, hcc]
    · intro e he
      unfold get_valid_token_refresh
      simp [he]
    · intro t hok hcc
      unfold get_valid_token_refresh
      simp [hok, hcc]

/-- Witness for C2: a fresh cached token is returned as-is with zero exchange
calls, and with an empty cache one successful exchange returns the new token. -/
theorem get_valid_token_cache_policy_witness :
    get_valid_token mgrFresh 0 (.ok cop401Resp) = ⟨mgrFresh, .ok "cop_tok", 0⟩ ∧
    (get_valid_token mgrGitHub 0 (.ok copOkResp)).result = .ok "cop_new" := by
  constructor
  · exact (get_valid_token_cache_policy mgrFresh 0 (.ok cop401Resp)).1
      { token := "cop_tok", expires_at := 1000 } rfl (by decide)
  · exact (((get_valid_token_cache_policy mgrGitHub 0 (.ok copOkResp)).2
      (Or.inl rfl)).2.2 { token := "cop_new", expires_at := 5000 } rfl rfl).1

/-- C9: clear_auth with no removal failure always succeeds, a second call also
succeeds, it succeeds for any removal outcome when no store entry exists, and
after any call the manager is unauthenticated with all three cached values and
the store entry cleared. -/
theorem clear_auth_idempotent (s : ManagerState) :
    ((clear_auth s none).2 = .ok ()) ∧
    ((clear_auth (clear_auth s none).1 none).2 = .ok ()) ∧
    (∀ rm, s.disk = none → (clear_auth s rm).2 = .ok ()) ∧
    (∀ rm, is_authenticated ((clear_auth s rm).1) = false) ∧
    (((clear_auth s none).1).github_token = none ∧
     ((clear_auth s none).1).copilot_token = none ∧
     ((clear_auth s none).1).github_user = none ∧
     ((clear_auth s none).1).disk = none) := by
  refine ⟨?_, ?_, ?_, ?_, ?_⟩
  · cases hd : s.disk <;> simp [clear_auth, hd]
  · cases hd : s.disk <;> simp [clear_auth, hd]
  · intro rm hd
    simp [clear_auth, hd]
  · intro rm
    cases hd : s.disk with
    | none => simp [clear_auth, hd, is_authenticated]
    | some st => cases rm <;> simp [clear_auth, hd, is_authenticated]
  · cases hd : s.disk <;> simp [clear_auth, hd]

/-- Witness for C9: clearing a populated manager, and clearing it again,
both succeed and leave it unauthenticated. -/
theorem clear_auth_idempotent_witness :
    (clear_auth mgrFresh none).2 = .ok () ∧
    (clear_auth (clear_auth mgrFresh none).1 none).2 = .ok () ∧
    (clear_auth mgrEmpty (some "io")).2 = .ok () ∧
    is_authenticated ((clear_auth mgrFresh none).1) = false := by
  refine ⟨(clear_auth_idempotent mgrFresh).1, (clear_auth_idempotent mgrFresh).2.1,
    (clear_auth_idempotent mgrEmpty).2.2.1 (some "io") rfl,
    (clear_auth_idempotent mgrFresh).2.2.2.1 none⟩

/-- Helper: the final state of get_valid_token is either the input state or
the state produced by fetch_copilot_token. -/
theorem get_valid_token_state_cases (s : ManagerState) (now : Int)
    (net : Except String CopilotTokenHttpResp) :
    (get_valid_token s now net).state = s ∨
    (get_valid_token s now net).state = (fetch_copilot_token s net).1 := by
  unfold get_valid_token get_valid_token_refresh
  cases hc : s.copilot_token with
  | none =>
    cases hfr : (fetch_copilot_token s net).2 with
    | error e => right; simp [hfr]
    | ok u =>
      cases u
      cases hcc : ((fetch_copilot_token s net).1).copilot_token with
      | none => right; simp [hfr, hcc]
      | some t => right; simp [hfr, hcc]
  | some t =>
    cases hexp : t.is_expiring_soon now with
    | false => left; simp [hexp]
    | true =>
      cases hfr : (fetch_copilot_token s net).2 with
      | error e => right; simp [hexp, hfr]
      | ok u =>
        cases u
        cases hcc : ((fetch_copilot_token s net).1).copilot_token with
        | none => right; simp [hexp, hfr, hcc]
        | some t2 => right; simp [hexp, hfr, hcc]

/-- Helper: poll_for_token leaves the disk unchanged unless the exchange
classified successfully and the disk write did not fail. -/
theorem poll_disk_change (s : ManagerState) (wire : PollWire)
    (un : Except String UserHttpResp) (cn : Except String CopilotTokenHttpResp)
    (now : Int) (ioErr : Option String) :
    ((poll_for_token s wire un cn now ioErr).1).disk = s.disk ∨
    ((∃ tr, classify_copilot_response cn = .ok tr) ∧ ioErr = none) := by
  cases wire with
  | netErr m => left; simp [poll_for_token]
  | parseErr m => left; simp [poll_for_token]
  | resp r =>
    cases he : r.error with
    | some e => left; simp [poll_for_token, he]
    | none =>
      cases ha : r.access_token with
      | none => left; simp [poll_for_token, he, ha]
      | some tok =>
        cases hfr : (fetch_copilot_token
            ((fetch_user_info { s with github_token := some tok } un).1) cn).2 with
        | error e =>
          left
          simp only [poll_for_token, he, ha, hfr]
          rw [(fetch_copilot_token_preserves _ _).2.2,
            (fetch_user_info_preserves _ _).2.2]
        | ok u =>
          cases u
          cases ioErr with
          | some e =>
            left
            simp only [poll_for_token, he, ha, hfr, save_to_disk]
            rw [(fetch_copilot_token_preserves _ _).2.2,
              (fetch_user_info_preserves _ _).2.2]
          | none =>
            right
            exact ⟨fetch_copilot_token_ok_classify _ _ hfr, rfl⟩

/-- C4: whenever poll_for_token returns Ok, the resulting state satisfies
is_authenticated and get_status reports authenticated, with no further calls. -/
theorem poll_success_authenticated (s : ManagerState) (wire : PollWire)
    (un : Except String UserHttpResp) (cn : Except String CopilotTokenHttpResp)
    (now : Int) (ioErr : Option String)
    (h : (poll_for_token s wire un cn now ioErr).2 = .ok ()) :
    is_authenticated ((poll_for_token s wire un cn now ioErr).1) = true ∧
    (get_status ((poll_for_token s wire un cn now ioErr).1)).authenticated = true := by
  cases wire with
  | netErr m => simp [poll_for_token] at h
  | parseErr m => simp [poll_for_token] at h
  | resp r =>
    cases he : r.error with
    | some e => simp [poll_for_token, he] at h
    | none =>
      cases ha : r.access_token with
      | none => simp [poll_for_token, he, ha] at h
      | some tok =>
        simp only [poll_for_token, he, ha] at h ⊢
        cases hfr : (fetch_copilot_token
            ((fetch_user_info { s with github_token := some tok } un).1) cn).2 with
        | error e => simp [hfr] at h
        | ok u =>
          cases u
          cases ioErr with
          | some e => simp [hfr, save_to_disk] at h
          | none =>
            have hg2 : ((fetch_user_info { s with github_token := some tok } un).1).github_token
                = some tok := (fetch_user_info_preserves _ _).1
            have hg3 : ((fetch_copilot_token
                ((fetch_user_info { s with github_token := some tok } un).1) cn).1).github_token
                = some tok := by
              rw [(fetch_copilot_token_preserves _ _).1, hg2]
            have hc3 := fetch_copilot_token_ok_copilot _ _ hfr
            simp [hfr, save_to_disk, is_authenticated, get_status, hg3, hc3]

/-- Witness for C4: a fully successful poll on an empty manager leaves it
authenticated. -/
theorem poll_success_authenticated_witness :
    is_authenticated ((poll_for_token mgrEmpty (.resp oauthGrant) userFail
      (.ok copOkResp) 7 none).1) = true ∧
    (get_status ((poll_for_token mgrEmpty (.resp oauthGrant) userFail
      (.ok copOkResp) 7 none).1)).authenticated = true :=
  poll_success_authenticated mgrEmpty (.resp oauthGrant) userFail (.ok copOkResp)
    7 none rfl

/-- C5: the durable store changes only in runs whose exchange classified
successfully, and a run whose exchange fails returns that error with the disk
untouched. -/
theorem poll_persists_only_after_exchange (s : ManagerState) (wire : PollWire)
    (un : Except String UserHttpResp) (cn : Except String CopilotTokenHttpResp)
    (now : Int) (ioErr : Option String) :
    (((poll_for_token s wire un cn now ioErr).1).disk ≠ s.disk →
      ∃ tr, classify_copilot_response cn = .ok tr) ∧
    (∀ r tok e, wire = .resp r → r.error = none → r.access_token = some tok →
      classify_copilot_response cn = .error e →
      (poll_for_token s wire un cn now ioErr).2 = .error e ∧
      ((poll_for_token s wire un cn now ioErr).1).disk = s.disk) := by
  constructor
  · intro hd
    rcases poll_disk_change s wire un cn now ioErr with h | h
    · exact absurd h hd
    · exact h.1
  · intro r tok e hw he ha hc
    subst hw
    have hg2 : ((fetch_user_info { s with github_token := some tok } un).1).github_token
        = some tok := (fetch_user_info_preserves _ _).1
    have hfr := fetch_copilot_token_of_classify_error
      ((fetch_user_info { s with github_token := some tok } un).1) cn tok e hg2 hc
    constructor
    · simp [poll_for_token, he, ha, hfr]
    · simp only [poll_for_token, he, ha, hfr]
      exact (fetch_user_info_preserves _ _).2.2

/-- Witness for C5: a poll whose exchange answers 401 returns the invalid
credential error and leaves the empty disk empty. -/
theorem poll_persists_only_after_exchange_witness :
    (poll_for_token mgrEmpty (.resp oauthGrant) userFail (.ok cop401Resp)
      7 none).2 = .error .GitHubTokenInvalid ∧
    ((poll_for_token mgrEmpty (.resp oauthGrant) userFail (.ok cop401Resp)
      7 none).1).disk = none :=
  (poll_persists_only_after_exchange mgrEmpty (.resp oauthGrant) userFail
    (.ok cop401Resp) 7 none).2 oauthGrant "gho_sample" .GitHubTokenInvalid
    rfl rfl rfl rfl

/-- C6: get_valid_token never changes the cached GitHub token or the
authentication state, in particular when it returns an error. -/
theorem get_valid_token_preserves_auth (s : ManagerState) (now : Int)
    (net : Except String CopilotTokenHttpResp) :
    ((get_valid_token s now net).state).github_token = s.github_token ∧
    is_authenticated ((get_valid_token s now net).state) = is_authenticated s ∧
    (∀ g e, s.github_token = some g → (get_valid_token s now net).result = .error e →
      ((get_valid_token s now net).state).github_token = some g) := by
  have hgt : ((get_valid_token s now net).state).github_token = s.github_token := by
    rcases get_valid_token_state_cases s now net with h | h
    · rw [h]
    · rw [h]
      exact (fetch_copilot_token_preserves _ _).1
  refine ⟨hgt, ?_, ?_⟩
  · simp [is_authenticated, hgt]
  · intro g e hg _
    rw [hgt, hg]

/-- Witness for C6: a refresh rejected with 401 reports the error while the
GitHub token stays cached. -/
theorem get_valid_token_preserves_auth_witness :
    ((get_valid_token mgrGitHub 0 (.ok cop401Resp)).state).github_token
      = some "gho_sample" :=
  (get_valid_token_preserves_auth mgrGitHub 0 (.ok cop401Resp)).2.2
    "gho_sample" .GitHubTokenInvalid rfl rfl

/-- C8: every model returned by fetch_models has model_picker_enabled true;
entries whose flag was false in the raw response are filtered out. -/
theorem fetch_models_picker_only (s : ManagerState) (now : Int)
    (tokNet : Except String CopilotTokenHttpResp) (net : Except String ModelsHttpResp)
    (models : List CopilotModel) (m : CopilotModel)
    (h : (fetch_models s now tokNet net).2 = .ok models) (hm : m ∈ models) :
    m.model_picker_enabled = true := by
  cases hr : (get_valid_token s now tokNet).result with
  | error e => simp [fetch_models, hr] at h
  | ok tokv =>
    cases net with
    | error e => simp [fetch_models, hr] at h
    | ok resp =>
      cases hs : isSuccessStatus resp.status with
      | false => simp [fetch_models, hr, hs] at h
      | true =>
        cases hb : resp.body with
        | error e => simp [fetch_models, hr, hs, hb] at h
        | ok mr =>
          simp only [fetch_models, hr, hs, hb, Bool.not_true, Bool.false_eq_true,
            if_false, Except.ok.injEq] at h
          subst h
          rw [List.mem_map] at hm
          obtain ⟨x, hx, hmx⟩ := hm
          rw [List.mem_filter] at hx
          rw [← hmx]
          exact hx.2

/-- Witness for C8: from a raw catalog with one enabled and one disabled
entry, the returned entry has the flag true. -/
theorem fetch_models_picker_only_witness :
    ({ id := "a", name := "A", vendor := "v", model_picker_enabled := true } :
      CopilotModel).model_picker_enabled = true :=
  fetch_models_picker_only mgrFresh 0 (.error "unused") (.ok modelsTwoResp)
    [{ id := "a", name := "A", vendor := "v", model_picker_enabled := true }]
    { id := "a", name := "A", vendor := "v", model_picker_enabled := true }
    rfl (List.mem_singleton.mpr rfl)

/-- C10: when the provider grants a token but the downstream exchange fails,
poll_for_token returns the error yet the manager reports authenticated because
the GitHub token was cached before the exchange. -/
theorem poll_exchange_failure_leaves_authenticated (s : ManagerState)
    (un : Except String UserHttpResp) (cn : Except String CopilotTokenHttpResp)
    (now : Int) (ioErr : Option String) (r : GitHubOAuthResponse)
    (tok : String) (e : CopilotAuthError)
    (he : r.error = none) (ha : r.access_token = some tok)
    (hc : classify_copilot_response cn = .error e) :
    (poll_for_token s (.resp r) un cn now ioErr).2 = .error e ∧
    is_authenticated ((poll_for_token s (.resp r) un cn now ioErr).1) = true := by
  have hg2 : ((fetch_user_info { s with github_token := some tok } un).1).github_token
      = some tok := (fetch_user_info_preserves _ _).1
  have hfr := fetch_copilot_token_of_classify_error
    ((fetch_user_info { s with github_token := some tok } un).1) cn tok e hg2 hc
  constructor
  · simp [poll_for_token, he, ha, hfr]
  · simp only [poll_for_token, he, ha, hfr]
    simp [is_authenticated, hg2]

/-- Witness for C10: a granted token followed by a 401 exchange leaves the
manager authenticated while the poll fails. -/
theorem poll_exchange_failure_leaves_authenticated_witness :
    (poll_for_token mgrEmpty (.resp oauthGrant) userFail (.ok cop401Resp)
      7 none).2 = .error .GitHubTokenInvalid ∧
    is_authenticated ((poll_for_token mgrEmpty (.resp oauthGrant) userFail
      (.ok cop401Resp) 7 none).1) = true :=
  poll_exchange_failure_leaves_authenticated mgrEmpty userFail (.ok cop401Resp)
    7 none oauthGrant "gho_sample" .GitHubTokenInvalid rfl rfl rfl

end CopilotAuth
